import Mathlib

/-!
# FitCalc — verification of the conversation wizard and calculation engine

Shallow embedding of `src/bot.py` (a Telegram fitness-calculator bot).
Numbers that the Python code holds as `float` are modelled over `ℚ`
(every constant appearing in the source is decimal and exactly
representable at the precision the claims use); the special values
`nan`/`inf`/`-inf` that Python's `float()` can produce are modelled by
an explicit inductive `PyFloat`, since the weight/height handlers can
store them.  Machine behaviour that matters to the claims — Python's
`int()` / `float()` parsing, `round()` (banker's rounding), substring
`in`, dict lookup — is embedded explicitly below.
-/

namespace FitCalc

/-- Python's `round(q)` on an exact rational: round half to even. -/
def pyRound (q : ℚ) : ℤ :=
  let f := ⌊q⌋
  let r := q - (f : ℚ)
  if r < 1/2 then f
  else if (1 : ℚ)/2 < r then f + 1
  else if f % 2 = 0 then f else f + 1

/-- Python's `round(q, 1)`: round to one decimal place, half to even. -/
def pyRound1 (q : ℚ) : ℚ := (pyRound (q * 10) : ℚ) / 10

/-- Python substring test `needle in hay`, on char lists: does `pre` lead `l`? -/
def leadMatch : List Char → List Char → Bool
  | [], _ => true
  | _ :: _, [] => false
  | a :: as, b :: bs => a = b && leadMatch as bs

/-- Contiguous-sublist test used to embed Python's `"Male" in text`. -/
def subList (needle : List Char) : List Char → Bool
  | [] => needle.isEmpty
  | c :: rest => leadMatch needle (c :: rest) || subList needle rest

/-- Python's `needle in hay` on strings (case-sensitive substring). -/
def pyIn (needle hay : String) : Bool := subList needle.data hay.data

/-- A run of decimal digits with Python's underscore rule: nonempty,
starts and ends with a digit, single underscores only between digits. -/
def digitRun : List Char → Bool
  | [] => false
  | [c] => c.isDigit
  | c :: '_' :: rest => c.isDigit && digitRun rest
  | c :: rest => c.isDigit && digitRun rest

/-- Value of a digit list (underscores removed beforehand). -/
def natOfDigits (cs : List Char) : Nat :=
  cs.foldl (fun a c => a * 10 + (c.toNat - 48)) 0

/-- Whitespace stripping done by Python's `int()`/`float()`. -/
def pyStrip (s : String) : String :=
  ⟨((s.data.dropWhile Char.isWhitespace).reverse.dropWhile Char.isWhitespace).reverse⟩

/-- `text.replace(",", ".")` — for a one-character pattern Python's
`str.replace` is a character map. -/
def replaceChar (a b : Char) (s : String) : String :=
  ⟨s.data.map (fun c => if c = a then b else c)⟩

/-- Parse an unsigned digit group (with Python's underscore rule). -/
def uVal (cs : List Char) : Option Nat :=
  if digitRun cs then some (natOfDigits (cs.filter (fun c => c != '_'))) else none

/-- Python's `int(text)`: strip whitespace, optional sign, digit run.
`None` models the `ValueError` raise. -/
def pyInt (s : String) : Option ℤ :=
  match (pyStrip s).data with
  | '+' :: rest => (uVal rest).map (fun n => (n : ℤ))
  | '-' :: rest => (uVal rest).map (fun n => -(n : ℤ))
  | cs => (uVal cs).map (fun n => (n : ℤ))

/-- A Python `float` value as far as this program can observe it:
`nan`, the two infinities, or a finite value (held exactly as a rational;
the source's decimal literals and the inputs the claims touch are exact). -/
inductive PyFloat where
  | nan
  | inf
  | ninf
  | fin (q : ℚ)
deriving DecidableEq, Repr

/-- Python `<` on floats: `nan` is incomparable (both orders `False`). -/
def pyLt : PyFloat → PyFloat → Bool
  | .nan, _ => false
  | _, .nan => false
  | .inf, _ => false
  | .ninf, .ninf => false
  | .ninf, _ => true
  | .fin _, .inf => true
  | .fin _, .ninf => false
  | .fin a, .fin b => decide (a < b)

/-- Python `>` on floats. -/
def pyGt (a b : PyFloat) : Bool := pyLt b a

/-- Python `<=` on floats: `nan` compares `False` to everything. -/
def pyLe : PyFloat → PyFloat → Bool
  | .nan, _ => false
  | _, .nan => false
  | a, b => a == b || pyLt a b

/-- Split a char list at the first `e`/`E` (exponent marker). -/
def splitAtE : List Char → List Char × Option (List Char)
  | [] => ([], none)
  | c :: rest =>
    if c = 'e' ∨ c = 'E' then ([], some rest)
    else
      let (m, e) := splitAtE rest
      (c :: m, e)

/-- Split a char list at the first `.`. -/
def splitAtDot : List Char → List Char × Option (List Char)
  | [] => ([], none)
  | c :: rest =>
    if c = '.' then ([], some rest)
    else
      let (m, e) := splitAtDot rest
      (c :: m, e)

/-- Parse a float exponent: optional sign plus digit run. -/
def expVal (cs : List Char) : Option ℤ :=
  match cs with
  | '+' :: rest => (uVal rest).map (fun n => (n : ℤ))
  | '-' :: rest => (uVal rest).map (fun n => -(n : ℤ))
  | _ => (uVal cs).map (fun n => (n : ℤ))

/-- Parse a float mantissa `digits[.digits]`, `.digits`, or `digits.`. -/
def mantVal (cs : List Char) : Option ℚ :=
  match splitAtDot cs with
  | (ip, none) => (uVal ip).map (fun n => (n : ℚ))
  | (ip, some fp) =>
    if ip.isEmpty then
      (uVal fp).map (fun n => (n : ℚ) / 10 ^ (fp.filter (fun c => c != '_')).length)
    else if fp.isEmpty then
      (uVal ip).map (fun n => (n : ℚ))
    else
      match uVal ip, uVal fp with
      | some i, some f =>
        some ((i : ℚ) + (f : ℚ) / 10 ^ (fp.filter (fun c => c != '_')).length)
      | _, _ => none

/-- Parse an unsigned numeric float literal `mantissa[(e|E)exponent]`. -/
def numVal (cs : List Char) : Option ℚ :=
  match splitAtE cs with
  | (mant, none) => mantVal mant
  | (mant, some ex) =>
    match mantVal mant, expVal ex with
    | some m, some e => some (m * (10 : ℚ) ^ e)
    | _, _ => none

/-- Python's `float(text)`: strip whitespace, optional sign, then either
`nan` / `inf` / `infinity` (case-insensitive) or a numeric literal.
`None` models the `ValueError` raise. -/
def pyFloatOf (s : String) : Option PyFloat :=
  let t := pyStrip s
  let sc : Bool × List Char :=
    match t.data with
    | '+' :: rest => (false, rest)
    | '-' :: rest => (true, rest)
    | cs => (false, cs)
  let neg := sc.1
  let cs := sc.2
  let low := cs.map Char.toLower
  if low = "nan".data then some .nan
  else if low = "inf".data ∨ low = "infinity".data then
    some (if neg then .ninf else .inf)
  else (numVal cs).map (fun q => .fin (if neg then -q else q))

/- ------------------------------------------------------------------ -/
/- Catalogs (src/bot.py lines 26-54).  Only the data the logic reads is
kept: the activity multiplier per label and the goal adjustment per
label; the description strings are presentation-only. -/

/-- Association-list lookup, embedding Python dict key lookup `d[k]`
(`none` models `KeyError`) and membership `k in d`. -/
def dictLookup {α : Type} (k : String) : List (String × α) → Option α
  | [] => none
  | (k2, v) :: rest => if k = k2 then some v else dictLookup k rest

/-- `ACTIVITY_LEVELS`: label ↦ multiplier (descriptions omitted). -/
def ACTIVITY_LEVELS : List (String × ℚ) :=
  [("🛋 Sedentary", 1.2),
   ("🚶 Lightly active", 1.375),
   ("🏃 Moderately active", 1.55),
   ("💪 Very active", 1.725),
   ("🏋 Extremely active", 1.9)]

/-- `GOALS`: label ↦ signed calorie adjustment. -/
def GOALS : List (String × ℚ) :=
  [("⬇️ Lose weight", -500),
   ("⚖️ Maintain weight", 0),
   ("⬆️ Gain muscle", 300),
   ("💥 Bulk (aggressive)", 500)]

/- ------------------------------------------------------------------ -/
/- Calculation engine (src/bot.py lines 94-128, 141). -/

/-- `calculate_bmr` (bot.py 94-100): Mifflin-St Jeor.  The Python `else`
branch subtracts 161 for any non-"male" gender string. -/
def calculate_bmr (gender : String) (age : ℤ) (weight height : ℚ) : ℚ :=
  let bmr := 10 * weight + 6.25 * height - 5 * (age : ℚ)
  if gender = "male" then bmr + 5 else bmr - 161

/-- `calculate_tdee` (bot.py 103-105).  `none` models the `KeyError` on
an unknown activity key; handlers only store catalog keys. -/
def calculate_tdee (bmr : ℚ) (activity_key : String) : Option ℚ :=
  (dictLookup activity_key ACTIVITY_LEVELS).map (fun multiplier => bmr * multiplier)

/-- The macro gram split. -/
structure Grams where
  protein : ℤ
  fat : ℤ
  carbs : ℤ
deriving DecidableEq, Repr

/-- `calculate_macros` (bot.py 108-116); the goal key argument is unused
by the source body, exactly as here. -/
def calculate_grams (calories : ℚ) (goal_key : String) : Grams :=
  let protein_cals := calories * 0.30
  let fat_cals := calories * 0.25
  let carb_cals := calories * 0.45
  ⟨pyRound (protein_cals / 4), pyRound (fat_cals / 9), pyRound (carb_cals / 4)⟩

/-- `calculate_water` (bot.py 119-128).  `none` models `KeyError`. -/
def calculate_water (weight : ℚ) (activity_key : String) : Option ℚ :=
  (dictLookup activity_key ACTIVITY_LEVELS).map (fun multiplier =>
    let base := weight * 35
    let base2 :=
      if multiplier ≥ 1.725 then base + 700
      else if multiplier ≥ 1.55 then base + 400
      else if multiplier ≥ 1.375 then base + 200
      else base
    pyRound1 (base2 / 1000))

/-- `goal_calories = tdee + GOALS[goal_key]` (bot.py 141 and 409). -/
def target_calories (tdee : ℚ) (goal_key : String) : Option ℚ :=
  (dictLookup goal_key GOALS).map (fun adj => tdee + adj)

/- ------------------------------------------------------------------ -/
/- Wizard state machine (src/bot.py lines 24, 56-64, 86-91, 262-438,
513-531). -/

/-- Step constants `GENDER, AGE, WEIGHT, HEIGHT, ACTIVITY, GOAL = range(6)`. -/
def GENDER : ℕ := 0
def AGE : ℕ := 1
def WEIGHT : ℕ := 2
def HEIGHT : ℕ := 3
def ACTIVITY : ℕ := 4
def GOAL : ℕ := 5

/-- `ConversationHandler.END` sentinel. -/
def ENDCODE : ℤ := -1

/-- `is_restart` (bot.py 86-87). -/
def is_restart (text : String) : Bool := text == "🔄 Restart"

/-- `is_back` (bot.py 90-91). -/
def is_back (text : String) : Bool := text == "⬅️ Back"

/-- The per-user `context.user_data` dict: the `current_step` bookkeeping
key plus the six answer fields, each absent (`none`) until validated. -/
structure UserData where
  current_step : Option ℕ
  gender : Option String
  age : Option ℤ
  weight : Option PyFloat
  height : Option PyFloat
  activity : Option String
  goal : Option String
deriving DecidableEq, Repr

/-- Empty `user_data` (after `clear()`, or for a brand-new user). -/
def emptyUD : UserData := ⟨none, none, none, none, none, none, none⟩

/-- `user_data` right after `start`: cleared, cursor at Gender. -/
def freshUD : UserData := { emptyUD with current_step := some GENDER }

/-- The messages the bot can send, one constructor per distinct
`reply_text` call site.  Each `ask*` constructor is the fixed prompt of
`ask_gender` … `ask_goal`; each `*Error` constructor is the fixed
re-prompt of the corresponding handler's single `except`/reject branch
(`age_handler`, `weight_handler`, `height_handler` each have exactly one
rejection message covering every failure; so do `activity_handler` and
`goal_handler`); `resultMsg` is the formatted calculation summary. -/
inductive Reply where
  | askGender
  | askAge
  | askWeight
  | askHeight
  | askActivity
  | askGoal
  | atFirstStepNotice
  | ageError
  | weightError
  | heightError
  | activityError
  | goalError
  | resultMsg
  | cancelledMsg
deriving DecidableEq, Repr

/-- `ASK_STEP[step]`'s prompt (bot.py 253-260); each `ask_*` also returns
its own step code, reflected in the handlers below.  Steps ≥ 6 never
occur (the dict would raise `KeyError`). -/
def askOf : ℕ → Reply
  | 0 => .askGender
  | 1 => .askAge
  | 2 => .askWeight
  | 3 => .askHeight
  | 4 => .askActivity
  | _ => .askGoal

/-- What one handler invocation produces: the conversation-state code it
returns (`-1` = END), the updated `user_data`, and the replies sent. -/
structure StepResult where
  ret : ℤ
  ud : UserData
  out : List Reply
deriving DecidableEq, Repr

/-- `start` (bot.py 262-267): clear `user_data`, set the cursor to
Gender, ask gender.  The `database.add_or_update_user` call is a
fire-and-forget persistence event with no effect on wizard state and is
not modelled. -/
def start (_ud : UserData) : StepResult :=
  ⟨(GENDER : ℕ), freshUD, [.askGender]⟩

/-- Deletion of the answer field named `STEP_NAMES[step]` (bot.py
278-280); for a step outside 0-5 `STEP_NAMES.get` yields `None` and
nothing is deleted. -/
def removeField (step : ℕ) (ud : UserData) : UserData :=
  match step with
  | 0 => { ud with gender := none }
  | 1 => { ud with age := none }
  | 2 => { ud with weight := none }
  | 3 => { ud with height := none }
  | 4 => { ud with activity := none }
  | 5 => { ud with goal := none }
  | _ => ud

/-- `back` (bot.py 270-283): step down one, deleting the previous
step's answer; at Gender, warn and re-ask without mutating. -/
def back (ud : UserData) : StepResult :=
  let current : ℤ := (ud.current_step.getD GENDER : ℕ)
  let prev : ℤ := current - 1
  if prev < (GENDER : ℕ) then
    ⟨(GENDER : ℕ), ud, [.atFirstStepNotice, .askGender]⟩
  else
    let p := prev.toNat
    ⟨prev, { removeField p ud with current_step := some p }, [askOf p]⟩

/-- `gender_handler` (bot.py 286-295): after the restart/back checks,
every text is accepted — `"male" if "Male" in text else "female"`. -/
def gender_handler (text : String) (ud : UserData) : StepResult :=
  if is_restart text then start ud
  else if is_back text then back ud
  else
    let g := if pyIn "Male" text then "male" else "female"
    ⟨(AGE : ℕ), { ud with gender := some g, current_step := some AGE }, [.askAge]⟩

/-- `age_handler` (bot.py 298-319): `int(text)`, range 10-100; parse
failure and range failure share the one `except ValueError` branch. -/
def age_handler (text : String) (ud : UserData) : StepResult :=
  if is_restart text then start ud
  else if is_back text then back ud
  else
    match pyInt text with
    | none => ⟨(AGE : ℕ), ud, [.ageError]⟩
    | some a =>
      if a < 10 ∨ 100 < a then ⟨(AGE : ℕ), ud, [.ageError]⟩
      else ⟨(WEIGHT : ℕ), { ud with age := some a, current_step := some WEIGHT }, [.askWeight]⟩

/-- `weight_handler` (bot.py 322-343): `float(text.replace(",", "."))`,
then `raise` when `weight < 30 or weight > 300` — a NaN value passes
both comparisons as `False` and is stored. -/
def weight_handler (text : String) (ud : UserData) : StepResult :=
  if is_restart text then start ud
  else if is_back text then back ud
  else
    match pyFloatOf (replaceChar ',' '.' text) with
    | none => ⟨(WEIGHT : ℕ), ud, [.weightError]⟩
    | some w =>
      if pyLt w (.fin 30) || pyGt w (.fin 300) then ⟨(WEIGHT : ℕ), ud, [.weightError]⟩
      else ⟨(HEIGHT : ℕ), { ud with weight := some w, current_step := some HEIGHT }, [.askHeight]⟩

/-- `height_handler` (bot.py 346-367): like weight with range 100-250. -/
def height_handler (text : String) (ud : UserData) : StepResult :=
  if is_restart text then start ud
  else if is_back text then back ud
  else
    match pyFloatOf (replaceChar ',' '.' text) with
    | none => ⟨(HEIGHT : ℕ), ud, [.heightError]⟩
    | some h =>
      if pyLt h (.fin 100) || pyGt h (.fin 250) then ⟨(HEIGHT : ℕ), ud, [.heightError]⟩
      else ⟨(ACTIVITY : ℕ), { ud with height := some h, current_step := some ACTIVITY }, [.askActivity]⟩

/-- `activity_handler` (bot.py 370-386): exact catalog-key match. -/
def activity_handler (text : String) (ud : UserData) : StepResult :=
  if is_restart text then start ud
  else if is_back text then back ud
  else if (dictLookup text ACTIVITY_LEVELS).isNone then ⟨(ACTIVITY : ℕ), ud, [.activityError]⟩
  else ⟨(GOAL : ℕ), { ud with activity := some text, current_step := some GOAL }, [.askGoal]⟩

/-- `goal_handler` (bot.py 389-430): exact catalog-key match; on success
stores the goal, computes and persists the calculation (the pure
`calculate_*` functions above; the DB write is fire-and-forget), sends
the formatted result and returns `END`.  Note the source does not touch
`current_step` here. -/
def goal_handler (text : String) (ud : UserData) : StepResult :=
  if is_restart text then start ud
  else if is_back text then back ud
  else if (dictLookup text GOALS).isNone then ⟨(GOAL : ℕ), ud, [.goalError]⟩
  else ⟨ENDCODE, { ud with goal := some text }, [.resultMsg]⟩

/-- `cancel` (bot.py 433-438): reply and end; `user_data` untouched. -/
def cancelOp (ud : UserData) : StepResult :=
  ⟨ENDCODE, ud, [.cancelledMsg]⟩

/-- The `states` table of the `ConversationHandler` (bot.py 518-525).
A state outside 0-5 (never returned by any handler) has no entry, so the
update would fall through unhandled. -/
def stepHandler : ℕ → String → UserData → StepResult
  | 0 => gender_handler
  | 1 => age_handler
  | 2 => weight_handler
  | 3 => height_handler
  | 4 => activity_handler
  | 5 => goal_handler
  | n + 6 => fun _ ud => ⟨((n + 6 : ℕ) : ℤ), ud, []⟩

/-- An inbound update: a slash command or a plain text message. -/
inductive Msg where
  | cmd (s : String)
  | text (s : String)
deriving DecidableEq, Repr

/-- Lift a handler return code to the conversation table entry:
`END` removes the conversation, any other code is the new state. -/
def wrap (r : StepResult) : Option ℕ × UserData × List Reply :=
  (if r.ret = ENDCODE then none else some r.ret.toNat, r.ud, r.out)

/-- One update through the `ConversationHandler` (bot.py 513-531),
following python-telegram-bot routing: with no active conversation only
the entry points run (`/start`, or the exact restart text); with an
active conversation a non-command text goes to the current state's
handler, and commands go to the fallbacks (`/cancel`, `/start`,
`/back`).  Anything else is unhandled and changes nothing. -/
def dispatch (conv : Option ℕ) (ud : UserData) (m : Msg) :
    Option ℕ × UserData × List Reply :=
  match conv, m with
  | none, .cmd c => if c = "start" then wrap (start ud) else (none, ud, [])
  | none, .text t => if t = "🔄 Restart" then wrap (start ud) else (none, ud, [])
  | some s, .cmd c =>
    if c = "cancel" then wrap (cancelOp ud)
    else if c = "start" then wrap (start ud)
    else if c = "back" then wrap (back ud)
    else (some s, ud, [])
  | some s, .text t => wrap (stepHandler s t ud)

/-- The AnswerSet invariant at cursor `s`: exactly the answer fields of
the steps strictly before `s` are present (`s = 6` means completed:
all six present). -/
def StepInv (s : ℕ) (ud : UserData) : Bool :=
  (ud.gender.isSome == decide (0 < s)) &&
  (ud.age.isSome == decide (1 < s)) &&
  (ud.weight.isSome == decide (2 < s)) &&
  (ud.height.isSome == decide (3 < s)) &&
  (ud.activity.isSome == decide (4 < s)) &&
  (ud.goal.isSome == decide (5 < s))

/- ------------------------------------------------------------------ -/
/- Spec-side definitions, written from the spec's words, for the
refinement claims. -/

/-- Spec 4.2: 30%/25%/45% calorie shares, grams at 4/9/4 kcal per gram,
each rounded to the nearest integer independently. -/
def specGramSplit (target : ℚ) : Grams :=
  ⟨pyRound (target * 30 / 100 / 4),
   pyRound (target * 25 / 100 / 9),
   pyRound (target * 45 / 100 / 4)⟩

/-- Spec 4.2: water is `weight × 35` mL plus the tiered activity bonus,
reported in liters rounded to one decimal place. -/
def specWater (w mult : ℚ) : ℚ :=
  pyRound1 ((w * 35 +
    (if mult ≥ 1.725 then 700
     else if mult ≥ 1.55 then 400
     else if mult ≥ 1.375 then 200
     else 0)) / 1000)

/-- A session sitting at the Age step (gender answered). -/
def ageUD : UserData := { freshUD with gender := some "male", current_step := some AGE }

/-- The claim-C3 property of a dispatch outcome: either the session is
active at some step `s' ≤ 5` whose cursor and answers satisfy the
AnswerSet invariant, or it has just completed with all six answers
present (the invariant at the Completed position 6). -/
def InvariantHolds (p : Option ℕ × UserData × List Reply) : Prop :=
  (∃ s', p.1 = some s' ∧ s' ≤ 5 ∧ p.2.1.current_step = some s' ∧
    StepInv s' p.2.1 = true)
  ∨ (p.1 = none ∧ StepInv 6 p.2.1 = true)

/- ================================================================== -/
/- Theorems -/

/-- C1: for a complete answer set, BMR follows Mifflin-St Jeor
(`10·w + 6.25·h − 5·a`, `+5` male / `−161` female), TDEE is BMR times
the activity multiplier, and target calories are TDEE plus the goal
adjustment; at gender=male, age=22, weight=75.5, height=180, the
moderate multiplier 1.55 and the −500 goal, BMR = 1775,
TDEE = 2751.25 and target = 2251.25. -/
theorem bmr_tdee_target_formulas :
    (∀ (a : ℤ) (w h : ℚ), calculate_bmr "male" a w h = 10 * w + 6.25 * h - 5 * a + 5)
    ∧ (∀ (a : ℤ) (w h : ℚ), calculate_bmr "female" a w h = 10 * w + 6.25 * h - 5 * a - 161)
    ∧ (∀ (bmr : ℚ) (k : String) (m : ℚ),
        dictLookup k ACTIVITY_LEVELS = some m → calculate_tdee bmr k = some (bmr * m))
    ∧ (∀ (t : ℚ) (k : String) (adj : ℚ),
        dictLookup k GOALS = some adj → target_calories t k = some (t + adj))
    ∧ calculate_bmr "male" 22 75.5 180 = 1775
    ∧ calculate_tdee 1775 "🏃 Moderately active" = some 2751.25
    ∧ target_calories 2751.25 "⬇️ Lose weight" = some 2251.25 := by
  refine ⟨?_, ?_, ?_, ?_,
    by norm_num [calculate_bmr],
    by simp only [calculate_tdee,
         show dictLookup "🏃 Moderately active" ACTIVITY_LEVELS = some 1.55 from rfl,
         Option.map_some', Option.some.injEq]; norm_num,
    by simp only [target_calories,
         show dictLookup "⬇️ Lose weight" GOALS = some (-500) from rfl,
         Option.map_some', Option.some.injEq]; norm_num⟩
  · intro a w h
    simp only [calculate_bmr, if_true, eq_self_iff_true]
  · intro a w h
    rw [calculate_bmr]
    rw [if_neg (by simp)]
  · intro bmr k m hk
    simp [calculate_tdee, hk]
  · intro t k adj hk
    simp [target_calories, hk]

/-- Witness for C1 at the spec's example inputs. -/
theorem bmr_tdee_target_formulas_witness :
    dictLookup "🏃 Moderately active" ACTIVITY_LEVELS = some 1.55
    ∧ calculate_tdee 1775 "🏃 Moderately active" = some (1775 * 1.55)
    ∧ dictLookup "⬇️ Lose weight" GOALS = some (-500)
    ∧ target_calories 2751.25 "⬇️ Lose weight" = some (2751.25 + (-500)) :=
  ⟨rfl, bmr_tdee_target_formulas.2.2.1 1775 _ 1.55 rfl,
   rfl, bmr_tdee_target_formulas.2.2.2.1 2751.25 _ (-500) rfl⟩

/-- C4: the macro split of any calorie target allocates 30%/25%/45% of
calories to protein/fat/carbs, converts at 4/9/4 kcal per gram, rounds
each value independently, and does not renormalize: at a 100 kcal target
the rounded grams recombine to 103 kcal, not 100. -/
theorem macro_split_independent_rounding :
    (∀ (c : ℚ) (g : String), calculate_grams c g = specGramSplit c)
    ∧ calculate_grams 100 "⬇️ Lose weight" = ⟨8, 3, 11⟩
    ∧ 4 * (calculate_grams 100 "⬇️ Lose weight").protein
        + 9 * (calculate_grams 100 "⬇️ Lose weight").fat
        + 4 * (calculate_grams 100 "⬇️ Lose weight").carbs ≠ 100 := by
  have hg : calculate_grams 100 "⬇️ Lose weight" = ⟨8, 3, 11⟩ := by
    simp only [calculate_grams, Grams.mk.injEq]
    norm_num [pyRound]
  refine ⟨?_, hg, by rw [hg]; norm_num⟩
  intro c g
  simp only [calculate_grams, specGramSplit, Grams.mk.injEq]
  exact ⟨congrArg pyRound (by ring), congrArg pyRound (by ring), congrArg pyRound (by ring)⟩

/-- C5: for every weight and catalog activity level, the water target is
`weight × 35` mL plus the tiered bonus (700/400/200/0 mL at multiplier
thresholds 1.725/1.55/1.375), in liters rounded to one decimal; at
weight 75.5 and multiplier 1.55 the total is 3042.5 mL, reported 3.0 L. -/
theorem water_target_tiers :
    (∀ (w : ℚ) (k : String) (m : ℚ), dictLookup k ACTIVITY_LEVELS = some m →
      calculate_water w k = some (specWater w m))
    ∧ (75.5 * 35 + 400 : ℚ) = 3042.5
    ∧ dictLookup "🏃 Moderately active" ACTIVITY_LEVELS = some 1.55
    ∧ calculate_water 75.5 "🏃 Moderately active" = some 3.0 := by
  refine ⟨?_, by norm_num, rfl, ?_⟩
  · intro w k m hk
    simp only [calculate_water, hk, Option.map_some', Option.some.injEq, specWater]
    split_ifs <;> norm_num
  · show (dictLookup "🏃 Moderately active" ACTIVITY_LEVELS).map _ = _
    rw [show dictLookup "🏃 Moderately active" ACTIVITY_LEVELS = some 1.55 from rfl]
    simp only [Option.map_some', Option.some.injEq]
    norm_num [pyRound1, pyRound]

/-- Witness for C5 at a sedentary (no-bonus) input. -/
theorem water_target_tiers_witness :
    dictLookup "🛋 Sedentary" ACTIVITY_LEVELS = some 1.2
    ∧ calculate_water 40 "🛋 Sedentary" = some (specWater 40 1.2) :=
  ⟨rfl, water_target_tiers.1 40 _ 1.2 rfl⟩

/-- C10: the input `"nan"` parses to a float NaN for which both range
comparisons are `False`, so the weight handler accepts and stores it
(although NaN does not lie within 30-300) and advances to Height; the
height handler behaves the same way. -/
theorem nan_passes_range_guards : ∀ ud : UserData,
    weight_handler "nan" ud =
      ⟨(HEIGHT : ℕ), { ud with weight := some .nan, current_step := some HEIGHT }, [.askHeight]⟩
    ∧ (pyLe (.fin 30) .nan && pyLe .nan (.fin 300)) = false
    ∧ height_handler "nan" ud =
      ⟨(ACTIVITY : ℕ), { ud with height := some .nan, current_step := some ACTIVITY }, [.askActivity]⟩
    ∧ (pyLe (.fin 100) .nan && pyLe .nan (.fin 250)) = false := by
  intro ud
  have hf : pyFloatOf (replaceChar ',' '.' "nan") = some .nan := rfl
  refine ⟨?_, rfl, ?_, rfl⟩
  · simp [weight_handler, is_restart, is_back, hf, pyLt, pyGt]
  · simp [height_handler, is_restart, is_back, hf, pyLt, pyGt]

/-- C2 counterexample: the input `"hello"` carries no male/female marker,
yet the Gender step accepts it — it is stored as `"female"` and the
session advances to Age; there is no rejection branch. -/
theorem gender_no_rejection_cex :
    gender_handler "hello" freshUD =
      ⟨(AGE : ℕ), { freshUD with gender := some "female", current_step := some AGE },
       [.askAge]⟩
    ∧ pyIn "Male" "hello" = false := ⟨rfl, rfl⟩

/-- C2 amended: at the Gender step every input other than the restart
and back tokens is accepted — text containing the substring `"Male"` is
stored as male, anything else as female — and the session always
advances to Age. -/
theorem gender_accepts_all (t : String) (ud : UserData)
    (hr : is_restart t = false) (hb : is_back t = false) :
    gender_handler t ud =
      ⟨(AGE : ℕ),
       { ud with gender := some (if pyIn "Male" t then "male" else "female"),
                 current_step := some AGE },
       [.askAge]⟩ := by
  simp [gender_handler, hr, hb]

/-- Witness for the amended C2. -/
theorem gender_accepts_all_witness :
    is_restart "👨 Male" = false ∧ is_back "👨 Male" = false ∧
    gender_handler "👨 Male" freshUD =
      ⟨(AGE : ℕ),
       { freshUD with gender := some (if pyIn "Male" "👨 Male" then "male" else "female"),
                      current_step := some AGE },
       [.askAge]⟩ :=
  ⟨rfl, rfl, gender_accepts_all "👨 Male" freshUD rfl rfl⟩

/-- C6 counterexample: at the Age step the non-numeric `"abc"` and the
out-of-range `"200"` produce the *same* outcome — the single
`except ValueError` branch with the single re-prompt message — so the
code does not expose two distinct failure kinds. -/
theorem age_uniform_failure_cex :
    age_handler "abc" ageUD = age_handler "200" ageUD
    ∧ age_handler "abc" ageUD = ⟨(AGE : ℕ), ageUD, [.ageError]⟩
    ∧ pyInt "abc" = none
    ∧ pyInt "200" = some 200 := ⟨rfl, rfl, rfl, rfl⟩

/-- C6 amended: at the Age step, non-numeric input and a parsed integer
outside 10-100 are both rejected through one uniform failure path (the
same reply, not distinct InvalidFormat/OutOfRange kinds); no exception
escapes, the session is unchanged (no field written, the step stays
Age), and the Age step is re-prompted. -/
theorem age_rejects_uniformly (t : String) (ud : UserData)
    (hr : is_restart t = false) (hb : is_back t = false)
    (hbad : ∀ n : ℤ, pyInt t = some n → n < 10 ∨ 100 < n) :
    age_handler t ud = ⟨(AGE : ℕ), ud, [.ageError]⟩ := by
  rw [age_handler, if_neg (by simp [hr]), if_neg (by simp [hb])]
  rcases h : pyInt t with _ | n
  · rfl
  · simp only [if_pos (hbad n h)]

/-- Witness for the amended C6 at input `"200"`. -/
theorem age_rejects_uniformly_witness :
    is_restart "200" = false ∧ is_back "200" = false ∧
    age_handler "200" ageUD = ⟨(AGE : ℕ), ageUD, [.ageError]⟩ :=
  ⟨rfl, rfl, age_rejects_uniformly "200" ageUD rfl rfl
    (by intro n h; rw [show pyInt "200" = some 200 from rfl] at h; cases h; norm_num)⟩

/-- C8: `back` invoked at the first step (cursor at Gender) replies with
the "already at the first step" notice, re-asks Gender, and mutates
nothing: the returned state is Gender and `user_data` is unchanged. -/
theorem back_at_first_step (ud : UserData)
    (h : ud.current_step.getD GENDER = GENDER) :
    back ud = ⟨(GENDER : ℕ), ud, [.atFirstStepNotice, .askGender]⟩ := by
  rw [back]
  simp only [h]
  rw [if_pos (by norm_num [GENDER])]

/-- Witness for C8 on a fresh session. -/
theorem back_at_first_step_witness :
    freshUD.current_step.getD GENDER = GENDER ∧
    back freshUD = ⟨(GENDER : ℕ), freshUD, [.atFirstStepNotice, .askGender]⟩ :=
  ⟨rfl, back_at_first_step freshUD rfl⟩

/-- C9 counterexample: a user with no session who sends the plain text
`"hello"` is *not* given an implicit fresh session at Gender — the
conversation handler has no matching entry point, so the input is
dropped: no session, no state change, no reply. -/
theorem no_session_text_dropped_cex :
    dispatch none emptyUD (.text "hello") = (none, emptyUD, []) := rfl

/-- C9 amended: with no existing session, plain text input is unhandled
(no session is created and the input is dropped, though no NoSession
error is raised); only the `/start` command or the exact restart token
text create a fresh session at Gender. -/
theorem no_session_requires_start :
    (∀ (ud : UserData) (t : String), t ≠ "🔄 Restart" →
      dispatch none ud (.text t) = (none, ud, []))
    ∧ (∀ ud : UserData,
        dispatch none ud (.text "🔄 Restart") = (some GENDER, freshUD, [.askGender]))
    ∧ (∀ ud : UserData,
        dispatch none ud (.cmd "start") = (some GENDER, freshUD, [.askGender]))
    ∧ (∀ (ud : UserData) (c : String), c ≠ "start" →
        dispatch none ud (.cmd c) = (none, ud, [])) := by
  refine ⟨?_, fun ud => rfl, fun ud => rfl, ?_⟩
  · intro ud t ht
    simp [dispatch, ht]
  · intro ud c hc
    simp [dispatch, hc]

/-- Lifting a handler result with a natural return code through the
conversation table keeps the session active at that code. -/
theorem wrap_ret_nat (r : StepResult) (n : ℕ) (h : r.ret = (n : ℤ)) :
    wrap r = (some n, r.ud, r.out) := by
  simp only [wrap, h, ENDCODE]
  rw [if_neg (by omega)]
  simp

/-- The `back` operation from a valid cursor `s` lands on a cursor
`s' ≤ s` with the AnswerSet invariant intact. -/
theorem back_inv (s : ℕ) (ud : UserData) (hs : s ≤ 5)
    (hcur : ud.current_step = some s) (hinv : StepInv s ud = true) :
    ∃ s', s' ≤ s ∧ s' ≤ 5 ∧ (back ud).ret = ((s' : ℕ) : ℤ) ∧
      (back ud).ud.current_step = some s' ∧ StepInv s' (back ud).ud = true := by
  obtain ⟨cs, g, a, w, h, act, gl⟩ := ud
  have hcs : cs = some s := hcur
  subst hcs
  interval_cases s
  · exact ⟨0, le_refl 0, by norm_num, by simp [back, GENDER],
      by simp [back, GENDER], by simpa [back, GENDER] using hinv⟩
  · refine ⟨0, by norm_num, by norm_num, ?_, ?_, ?_⟩ <;>
      simp_all [back, removeField, StepInv, GENDER, askOf]
  · refine ⟨1, by norm_num, by norm_num, ?_, ?_, ?_⟩ <;>
      simp_all [back, removeField, StepInv, GENDER, askOf]
  · refine ⟨2, by norm_num, by norm_num, ?_, ?_, ?_⟩ <;>
      simp_all [back, removeField, StepInv, GENDER, askOf]
  · refine ⟨3, by norm_num, by norm_num, ?_, ?_, ?_⟩ <;>
      simp_all [back, removeField, StepInv, GENDER, askOf]
  · refine ⟨4, by norm_num, by norm_num, ?_, ?_, ?_⟩ <;>
      simp_all [back, removeField, StepInv, GENDER, askOf]

/-- A handler result at code `n ≤ 5` with a valid cursor and invariant
satisfies the C3 property after wrapping. -/
theorem invHolds_step (r : StepResult) (n : ℕ) (hn : n ≤ 5) (hret : r.ret = (n : ℤ))
    (hcs : r.ud.current_step = some n) (hinv : StepInv n r.ud = true) :
    InvariantHolds (wrap r) := by
  left
  exact ⟨n, by rw [wrap_ret_nat r n hret], hn, by rw [wrap_ret_nat r n hret]; exact hcs,
    by rw [wrap_ret_nat r n hret]; exact hinv⟩

/-- The `start` operation establishes the invariant at Gender. -/
theorem invHolds_start (ud : UserData) : InvariantHolds (wrap (start ud)) :=
  invHolds_step _ 0 (by norm_num) rfl rfl rfl

/-- The `back` operation preserves the C3 property. -/
theorem invHolds_back (s : ℕ) (ud : UserData) (hs : s ≤ 5)
    (hcur : ud.current_step = some s) (hinv : StepInv s ud = true) :
    InvariantHolds (wrap (back ud)) := by
  obtain ⟨s', _, hs', hret, hcs, hinv'⟩ := back_inv s ud hs hcur hinv
  exact invHolds_step _ s' hs' hret hcs hinv'

/-- A handler result returning `END` with all six answers present
satisfies the C3 property (completed session). -/
theorem invHolds_end (r : StepResult) (hret : r.ret = ENDCODE)
    (hinv : StepInv 6 r.ud = true) : InvariantHolds (wrap r) := by
  right
  constructor <;> simp [wrap, hret, hinv]

/-- C3: from any session whose answers are exactly the fields before the
current step, every dispatched update — start, restart, any submit, and
back (cancel aside) — leaves the session either active at a step whose
answers are again exactly the fields before it, or completed with all
six answers present. -/
theorem wizard_answers_invariant (s : ℕ) (ud : UserData) (m : Msg)
    (hs : s ≤ 5) (hcur : ud.current_step = some s) (hinv : StepInv s ud = true)
    (hm : m ≠ .cmd "cancel") :
    InvariantHolds (dispatch (some s) ud m) := by
  rcases m with c | t
  · have hc : ¬ c = "cancel" := fun h => hm (by rw [h])
    show InvariantHolds
      (if c = "cancel" then wrap (cancelOp ud)
       else if c = "start" then wrap (start ud)
       else if c = "back" then wrap (back ud)
       else (some s, ud, []))
    rw [if_neg hc]
    by_cases h2 : c = "start"
    · rw [if_pos h2]
      exact invHolds_start ud
    · rw [if_neg h2]
      by_cases h3 : c = "back"
      · rw [if_pos h3]
        exact invHolds_back s ud hs hcur hinv
      · rw [if_neg h3]
        exact Or.inl ⟨s, rfl, hs, hcur, hinv⟩
  · show InvariantHolds (wrap (stepHandler s t ud))
    interval_cases s
    · simp only [stepHandler, gender_handler]
      by_cases hr : is_restart t = true
      · simp only [hr, if_true]
        exact invHolds_start ud
      · by_cases hb : is_back t = true
        · simp only [hr, hb, if_true, if_false, Bool.false_eq_true]
          exact invHolds_back 0 ud (by norm_num) hcur hinv
        · simp only [hr, hb, if_false, Bool.false_eq_true]
          refine invHolds_step _ 1 (by norm_num) rfl rfl ?_
          simp_all [StepInv, AGE]
    · simp only [stepHandler, age_handler]
      by_cases hr : is_restart t = true
      · simp only [hr, if_true]
        exact invHolds_start ud
      · by_cases hb : is_back t = true
        · simp only [hr, hb, if_true, if_false, Bool.false_eq_true]
          exact invHolds_back 1 ud (by norm_num) hcur hinv
        · simp only [hr, hb, if_false, Bool.false_eq_true]
          rcases hp : pyInt t with _ | n
          · exact invHolds_step _ 1 (by norm_num) rfl hcur hinv
          · simp only []
            by_cases hrange : n < 10 ∨ 100 < n
            · rw [if_pos hrange]
              exact invHolds_step _ 1 (by norm_num) rfl hcur hinv
            · rw [if_neg hrange]
              refine invHolds_step _ 2 (by norm_num) rfl rfl ?_
              simp_all [StepInv, WEIGHT]
    · simp only [stepHandler, weight_handler]
      by_cases hr : is_restart t = true
      · simp only [hr, if_true]
        exact invHolds_start ud
      · by_cases hb : is_back t = true
        · simp only [hr, hb, if_true, if_false, Bool.false_eq_true]
          exact invHolds_back 2 ud (by norm_num) hcur hinv
        · simp only [hr, hb, if_false, Bool.false_eq_true]
          rcases hp : pyFloatOf (replaceChar ',' '.' t) with _ | w
          · exact invHolds_step _ 2 (by norm_num) rfl hcur hinv
          · simp only []
            by_cases hrange : (pyLt w (.fin 30) || pyGt w (.fin 300)) = true
            · rw [if_pos hrange]
              exact invHolds_step _ 2 (by norm_num) rfl hcur hinv
            · rw [if_neg hrange]
              refine invHolds_step _ 3 (by norm_num) rfl rfl ?_
              simp_all [StepInv, HEIGHT]
    · simp only [stepHandler, height_handler]
      by_cases hr : is_restart t = true
      · simp only [hr, if_true]
        exact invHolds_start ud
      · by_cases hb : is_back t = true
        · simp only [hr, hb, if_true, if_false, Bool.false_eq_true]
          exact invHolds_back 3 ud (by norm_num) hcur hinv
        · simp only [hr, hb, if_false, Bool.false_eq_true]
          rcases hp : pyFloatOf (replaceChar ',' '.' t) with _ | h
          · exact invHolds_step _ 3 (by norm_num) rfl hcur hinv
          · simp only []
            by_cases hrange : (pyLt h (.fin 100) || pyGt h (.fin 250)) = true
            · rw [if_pos hrange]
              exact invHolds_step _ 3 (by norm_num) rfl hcur hinv
            · rw [if_neg hrange]
              refine invHolds_step _ 4 (by norm_num) rfl rfl ?_
              simp_all [StepInv, ACTIVITY]
    · simp only [stepHandler, activity_handler]
      by_cases hr : is_restart t = true
      · simp only [hr, if_true]
        exact invHolds_start ud
      · by_cases hb : is_back t = true
        · simp only [hr, hb, if_true, if_false, Bool.false_eq_true]
          exact invHolds_back 4 ud (by norm_num) hcur hinv
        · by_cases ha : (dictLookup t ACTIVITY_LEVELS).isNone = true
          · simp only [hr, hb, ha, if_true, if_false, Bool.false_eq_true]
            exact invHolds_step _ 4 (by norm_num) rfl hcur hinv
          · simp only [hr, hb, ha, if_false, Bool.false_eq_true]
            refine invHolds_step _ 5 (by norm_num) rfl rfl ?_
            simp_all [StepInv, GOAL]
    · simp only [stepHandler, goal_handler]
      by_cases hr : is_restart t = true
      · simp only [hr, if_true]
        exact invHolds_start ud
      · by_cases hb : is_back t = true
        · simp only [hr, hb, if_true, if_false, Bool.false_eq_true]
          exact invHolds_back 5 ud (by norm_num) hcur hinv
        · by_cases hg : (dictLookup t GOALS).isNone = true
          · simp only [hr, hb, hg, if_true, if_false, Bool.false_eq_true]
            exact invHolds_step _ 5 (by norm_num) rfl hcur hinv
          · simp only [hr, hb, hg, if_false, Bool.false_eq_true]
            refine invHolds_end _ rfl ?_
            simp_all [StepInv]

/-- Witness for C3: a fresh session accepting a gender answer. -/
theorem wizard_answers_invariant_witness :
    InvariantHolds (dispatch (some 0) freshUD (.text "👨 Male")) :=
  wizard_answers_invariant 0 freshUD (.text "👨 Male") (by norm_num) rfl rfl (by simp)

/-- C7: from a session at step `s ≤ 4` satisfying the AnswerSet
invariant, a submit that advances to step `s + 1` followed by `back`
returns the session exactly to where it was: step `s`, the `s`-field
removed again, every earlier field intact, with step `s` re-prompted. -/
theorem back_inverts_submit (s : ℕ) (ud : UserData) (t : String)
    (hs : s ≤ 4) (hcur : ud.current_step = some s) (hinv : StepInv s ud = true)
    (hadv : (dispatch (some s) ud (.text t)).1 = some (s + 1)) :
    dispatch (some (s + 1)) (dispatch (some s) ud (.text t)).2.1 (.cmd "back")
      = (some s, ud, [askOf s]) := by
  obtain ⟨cs, g, a, w, h, act, gl⟩ := ud
  have hcs : cs = some s := hcur
  subst hcs
  simp only [StepInv] at hinv
  interval_cases s
  · by_cases hr : is_restart t = true
    · exfalso
      simp [dispatch, stepHandler, gender_handler, hr, wrap, start, ENDCODE, GENDER] at hadv
    · by_cases hb : is_back t = true
      · exfalso
        simp [dispatch, stepHandler, gender_handler, hr, hb, back, wrap, ENDCODE, GENDER,
          removeField] at hadv
      · have hg : g = none := by cases g <;> simp_all
        subst hg
        simp only [dispatch, stepHandler, gender_handler, hr, hb, if_false, Bool.false_eq_true]
        rfl
  · by_cases hr : is_restart t = true
    · exfalso
      simp [dispatch, stepHandler, age_handler, hr, wrap, start, ENDCODE, GENDER] at hadv
    · by_cases hb : is_back t = true
      · exfalso
        simp [dispatch, stepHandler, age_handler, hr, hb, back, wrap, ENDCODE, GENDER,
          removeField] at hadv
      · have ha : a = none := by cases a <;> simp_all
        subst ha
        simp only [dispatch, stepHandler, age_handler, hr, hb, if_false,
          Bool.false_eq_true] at hadv ⊢
        rcases hp : pyInt t with _ | n
        · rw [hp] at hadv
          exfalso
          simp [wrap, ENDCODE, AGE] at hadv
        · rw [hp] at hadv
          simp only [] at hadv ⊢
          by_cases hrange : n < 10 ∨ 100 < n
          · rw [if_pos hrange] at hadv
            exfalso
            simp [wrap, ENDCODE, AGE] at hadv
          · rw [if_neg hrange]
            rfl
  · by_cases hr : is_restart t = true
    · exfalso
      simp [dispatch, stepHandler, weight_handler, hr, wrap, start, ENDCODE, GENDER] at hadv
    · by_cases hb : is_back t = true
      · exfalso
        simp [dispatch, stepHandler, weight_handler, hr, hb, back, wrap, ENDCODE, GENDER,
          removeField] at hadv
      · have hw : w = none := by cases w <;> simp_all
        subst hw
        simp only [dispatch, stepHandler, weight_handler, hr, hb, if_false,
          Bool.false_eq_true] at hadv ⊢
        rcases hp : pyFloatOf (replaceChar ',' '.' t) with _ | v
        · rw [hp] at hadv
          exfalso
          simp [wrap, ENDCODE, WEIGHT] at hadv
        · rw [hp] at hadv
          simp only [] at hadv ⊢
          by_cases hrange : (pyLt v (.fin 30) || pyGt v (.fin 300)) = true
          · rw [if_pos hrange] at hadv
            exfalso
            simp [wrap, ENDCODE, WEIGHT] at hadv
          · rw [if_neg hrange]
            rfl
  · by_cases hr : is_restart t = true
    · exfalso
      simp [dispatch, stepHandler, height_handler, hr, wrap, start, ENDCODE, GENDER] at hadv
    · by_cases hb : is_back t = true
      · exfalso
        simp [dispatch, stepHandler, height_handler, hr, hb, back, wrap, ENDCODE, GENDER,
          removeField] at hadv
      · have hh : h = none := by cases h <;> simp_all
        subst hh
        simp only [dispatch, stepHandler, height_handler, hr, hb, if_false,
          Bool.false_eq_true] at hadv ⊢
        rcases hp : pyFloatOf (replaceChar ',' '.' t) with _ | v
        · rw [hp] at hadv
          exfalso
          simp [wrap, ENDCODE, HEIGHT] at hadv
        · rw [hp] at hadv
          simp only [] at hadv ⊢
          by_cases hrange : (pyLt v (.fin 100) || pyGt v (.fin 250)) = true
          · rw [if_pos hrange] at hadv
            exfalso
            simp [wrap, ENDCODE, HEIGHT] at hadv
          · rw [if_neg hrange]
            rfl
  · by_cases hr : is_restart t = true
    · exfalso
      simp [dispatch, stepHandler, activity_handler, hr, wrap, start, ENDCODE, GENDER] at hadv
    · by_cases hb : is_back t = true
      · exfalso
        simp [dispatch, stepHandler, activity_handler, hr, hb, back, wrap, ENDCODE, GENDER,
          removeField] at hadv
      · have hact : act = none := by cases act <;> simp_all
        subst hact
        by_cases hl : (dictLookup t ACTIVITY_LEVELS).isNone = true
        · exfalso
          simp [dispatch, stepHandler, activity_handler, hr, hb, hl, wrap, ENDCODE,
            ACTIVITY] at hadv
        · simp only [dispatch, stepHandler, activity_handler, hr, hb, hl, if_false,
            Bool.false_eq_true]
          rfl

/-- Witness for C7: submit a gender, then back to a fresh session. -/
theorem back_inverts_submit_witness :
    dispatch (some 1) (dispatch (some 0) freshUD (.text "👨 Male")).2.1 (.cmd "back")
      = (some 0, freshUD, [askOf 0]) :=
  back_inverts_submit 0 freshUD "👨 Male" (by norm_num) rfl rfl rfl


/-- Witness for the amended C9. -/
theorem no_session_requires_start_witness :
    dispatch none emptyUD (.text "hi") = (none, emptyUD, [])
    ∧ dispatch none emptyUD (.cmd "start") = (some GENDER, freshUD, [.askGender])
    ∧ dispatch none emptyUD (.cmd "help") = (none, emptyUD, []) :=
  ⟨no_session_requires_start.1 emptyUD "hi" (by simp),
   no_session_requires_start.2.2.1 emptyUD,
   no_session_requires_start.2.2.2 emptyUD "help" (by simp)⟩

end FitCalc
